import Mathlib

/-!
Verification of the yab lircd core against its natural-language specification.

The definitions below are a shallow embedding of the C sources:
  src/daemons/lircd.c      (main, loop, opt2host_port, oatoi)
  src/lib/hw-types.c       (hw_choose_driver, hw_list, hw_null, hw_default)
  src/lib/lirc_options.c   (parse_options, add_defaults, load_config,
                            lirc_options_init)
The generic ini-style options store (ciniparser) and a handful of libc
functions (strtol, strchr, strcasecmp, inet_aton) are not part of the
repository sources; they are modelled from their documented behaviour, as
noted on each definition.  Machine integers are modelled as Int/Nat with
explicit reduction modulo 2^32 where the C code stores into a __u32.
-/

namespace Yab

/-! ## Options dictionary (ciniparser)

Modelled from the spec: the repository treats the ini-style key/value
parser (ciniparser.c, not under src/) as an excluded collaborator.  A
dictionary maps string keys to values; a value may be a stored string or a
stored NULL pointer (dictionary_set with a NULL value), hence the value
type Option String.  A set shadows any earlier binding of the same key,
and a get returns the most recent binding, so the store is modelled as an
association list consulted front to back. -/

abbrev Dict := List (String × Option String)

/-- Lookup of a key: some v when the key is bound (v none models a stored
NULL value), none when the key is absent. -/
def dictGet (d : Dict) (k : String) : Option (Option String) :=
  (d.find? (fun p => p.1 == k)).map Prod.snd

/-- Binding a key shadows any earlier binding (dictionary_set). -/
def dictSet (d : Dict) (k : String) (v : Option String) : Dict :=
  (k, v) :: d

/-- Model of ciniparser_getstring: the stored value when the key is bound
(a stored NULL is returned as NULL), the caller-supplied default when the
key is absent. -/
def getstring (d : Dict) (k : String) (dflt : Option String) : Option String :=
  match dictGet d k with
  | some v => v
  | none => dflt

/-- Model of the first-character test of ciniparser_getboolean. -/
def boolOfChar (c : Char) (notfound : Bool) : Bool :=
  if c = 'y' ∨ c = 'Y' ∨ c = '1' ∨ c = 't' ∨ c = 'T' then true
  else if c = 'n' ∨ c = 'N' ∨ c = '0' ∨ c = 'f' ∨ c = 'F' then false
  else notfound

/-- Model of ciniparser_getboolean: decided by the first character of the
stored string, the default on an absent key or unrecognised string. -/
def getboolean (d : Dict) (k : String) (notfound : Bool) : Bool :=
  match getstring d k none with
  | none => notfound
  | some s =>
    match s.toList with
    | [] => notfound
    | c :: _ => boolOfChar c notfound

/-- Character class test for strtol base 10. -/
def isDigitChar (c : Char) : Bool := c.isDigit

/-- Value of a run of decimal digits. -/
def digitsVal (ds : List Char) : Int :=
  ds.foldl (fun a c => a * 10 + ((c.toNat : Int) - 48)) 0

/-- Model of C strtol with base 10: skip leading whitespace, accept one
optional sign, consume decimal digits.  Returns the value and the
remainder of the input at the final endptr; when no digits are converted
the value is 0 and the endptr is the whole original input. -/
def strtol10 (s : List Char) : Int × List Char :=
  let t := s.dropWhile (fun c => c == ' ' || c == '\t' || c == '\n' ||
                                 c == '\x0b' || c == '\x0c' || c == '\r')
  let signed : Bool × List Char :=
    match t with
    | '-' :: r => (true, r)
    | '+' :: r => (false, r)
    | _ => (false, t)
  let ds := signed.2.takeWhile isDigitChar
  if ds.isEmpty then (0, s)
  else ((if signed.1 then -(digitsVal ds) else digitsVal ds),
        signed.2.dropWhile isDigitChar)

/-- Model of ciniparser_getint: strtol of the stored string, the default
on an absent key. -/
def getint (d : Dict) (k : String) (notfound : Int) : Int :=
  match getstring d k none with
  | none => notfound
  | some s => (strtol10 s.toList).1

/-! ## Build-time constants

Modelled from the spec: LIRCD, PIDFILE, LOGFILE, PLUGINDIR and
LIRC_RELEASE_SUFFIX are build-configuration macros whose definitions are
outside src/; theorems are stated for arbitrary values of them. -/

structure BuildConsts where
  lircd : String
  pidfilePath : String
  logfilePath : String
  plugindir : String
  releaseSuffix : String
deriving DecidableEq, Repr

/-- Concrete build constants used only to instantiate witnesses. -/
def sampleConsts : BuildConsts :=
  ⟨"/var/run/lirc/lircd", "/var/run/lirc/lircd.pid", "/var/log/lircd",
   "/usr/lib/lirc/plugins", "_UP"⟩

/-! ## lirc_options.c -/

/-- From lirc_options.c: default_permissions. -/
def default_permissions : String := "666"

/-- From lirc/lirc_options.h line 10. -/
def DEFAULT_REPEAT_MAX : String := "600"

/-- The defaults table of add_defaults (lirc_options.c lines 110-127); the
C loop stops at the first NULL key, and three defaults are stored NULL
values. -/
def defaultsList (bc : BuildConsts) : List (String × Option String) :=
  [("lircd:nodaemon", some "False"),
   ("lircd:permission", some default_permissions),
   ("lircd:driver", some "default"),
   ("lircd:device", some "/dev/lirc0"),
   ("lircd:listen", none),
   ("lircd:connect", none),
   ("lircd:output", some bc.lircd),
   ("lircd:pidfile", some bc.pidfilePath),
   ("lircd:logfile", some bc.logfilePath),
   ("lircd:plugindir", some bc.plugindir),
   ("lircd:debug", some "False"),
   ("lircd:release", none),
   ("lircd:allow_simulate", some "False"),
   ("lircd:uinput", some "False"),
   ("lircd:repeat-max", some DEFAULT_REPEAT_MAX)]

/-- One step of add_defaults: set the key only when getstring returns
NULL (key absent or bound to a stored NULL). -/
def addStep (d : Dict) (kv : String × Option String) : Dict :=
  match getstring d kv.1 none with
  | none => dictSet d kv.1 kv.2
  | some _ => d

/-- From lirc_options.c: add_defaults. -/
def add_defaults (bc : BuildConsts) (d : Dict) : Dict :=
  (defaultsList bc).foldl addStep d

/-- One processed command-line option as recognised by the getopt loop of
parse_options.  The exiting cases h/v and the option-file recursion O are
not represented: they never reach the remainder of main. -/
inductive CmdOpt where
  | n
  | p (arg : String)
  | H (arg : String)
  | d (arg : String)
  | P (arg : String)
  | U (arg : String)
  | L (arg : String)
  | o (arg : String)
  | l (arg : Option String)
  | c (arg : String)
  | D (arg : Option String)
  | a
  | r (arg : Option String)
  | u
  | R (arg : String)
deriving DecidableEq, Repr

/-- From lirc_options.c lines 174-242: the effect of one case of the
option switch on the dictionary. -/
def applyOpt (bc : BuildConsts) (d : Dict) : CmdOpt → Dict
  | .n => dictSet d "lircd:nodaemon" (some "True")
  | .p s => dictSet d "lircd:permission" (some s)
  | .H s => dictSet d "lircd:driver" (some s)
  | .d s => dictSet d "lircd:device" (some s)
  | .P s => dictSet d "lircd:pidfile" (some s)
  | .U s => dictSet d "lircd:plugindir" (some s)
  | .L s => dictSet d "lircd:logfile" (some s)
  | .o s => dictSet d "lircd:lircdfile" (some s)
  | .l s => dictSet (dictSet d "lircd:listen" (some "True"))
                    "lircd:listen_hostport" s
  | .c s => dictSet d "lircd:connect" (some s)
  | .D s => dictSet d "lircd:debug" (some (s.getD "1"))
  | .a => dictSet d "lircd:allow-simulate" (some "True")
  | .r s => dictSet (dictSet d "lircd:release" (some "True"))
                    "lircd:release_suffix" (some (s.getD bc.releaseSuffix))
  | .u => dictSet d "lircd:uinput" (some "True")
  | .R s => dictSet d "lircd:repeat-max" (some s)

/-- From lirc_options.c: the getopt loop of parse_options, as a fold over
the processed options. -/
def parse_options (bc : BuildConsts) (d : Dict) (opts : List CmdOpt) : Dict :=
  opts.foldl (applyOpt bc) d

/-- Model of ciniparser_load: a loaded options file binds its keys to
actual strings (never to NULL). -/
def loadFile (entries : List (String × String)) : Dict :=
  entries.map (fun kv => (kv.1, some kv.2))

/-- From lirc_options.c: load_config and lirc_options_init, which load
the options file, apply add_defaults, then parse the command line. -/
def lirc_options_init (bc : BuildConsts) (entries : List (String × String))
    (opts : List CmdOpt) : Dict :=
  parse_options bc (add_defaults bc (loadFile entries)) opts

/-! ## hw-types.c -/

/-- From lirc/hardware.h (declaration only in src): the hardware driver
record.  Function-pointer members are modelled by their presence, since
loop and main only test them against NULL; drivers in this repository
carry no functions at all. -/
structure Hardware where
  device : Option String
  fd : Int
  features : Nat
  send_mode : Nat
  rec_mode : Nat
  code_length : Nat
  init_func : Bool
  deinit_func : Bool
  send_func : Bool
  rec_func : Bool
  decode_func : Bool
  ioctl_func : Bool
  readdata : Bool
  name : String
deriving DecidableEq, Repr

/-- From hw-types.c lines 68-83: the null driver. -/
def hw_null : Hardware :=
  ⟨some "/dev/null", -1, 0, 0, 0, 0,
   false, false, false, false, false, false, false, "null"⟩

/-- From hw-types.c lines 90-105: hw_default, also the HW_DEFAULT
fallback; it is identical to hw_null. -/
def hw_default : Hardware :=
  ⟨some "/dev/null", -1, 0, 0, 0, 0,
   false, false, false, false, false, false, false, "null"⟩

/-- From hw-types.c lines 85-88: the driver table holds only hw_null. -/
def hw_list : List Hardware := [hw_null]

/-- Model of libc strcasecmp returning 0: equality after ASCII case
folding. -/
def strcaseEq (a b : String) : Bool :=
  a.toList.map Char.toLower == b.toList.map Char.toLower

/-- From hw-types.c lines 121-124: the backwards-compatibility alias
applied to a requested driver name. -/
def aliasName (n : String) : String :=
  if strcaseEq n "dev/input" then "devinput" else n

/-- From hw-types.c lines 113-133: hw_choose_driver.  The first component
is the C return value; the second is the global hw after the call, whose
value before the call is the hw0 argument. -/
def hw_choose_driver (hw0 : Hardware) : Option String → Int × Hardware
  | none => (0, hw_default)
  | some n0 =>
    match hw_list.find? (fun h => strcaseEq h.name (aliasName n0)) with
    | some h => (0, h)
    | none => (-1, hw0)

/-! ## lircd.c helpers -/

/-- From lircd.c line 146: isodigit. -/
def isodigit (c : Char) : Bool := decide ('0' ≤ c ∧ c ≤ '7')

/-- From lircd.c lines 215-227: oatoi, the octal mode scanner; returns -1
on NULL, on an empty string and on any non-octal character. -/
def oatoi : Option String → Int
  | none => -1
  | some str =>
    match str.toList with
    | [] => -1
    | l =>
      if (l.dropWhile isodigit).isEmpty then
        (l.takeWhile isodigit).foldl (fun a c => a * 8 + ((c.toNat : Int) - 48)) 0
      else -1

/-- Model of libc strchr on ':': the split of the argument at its first
colon, when one exists. -/
def splitAtColon (s : List Char) : Option (List Char × List Char) :=
  match s.findIdx? (fun c => c == ':') with
  | none => none
  | some i => some (s.take i, s.drop (i + 1))

/-- Observable outcome of opt2host_port: the C return value, the value
stored through the port pointer (if any), whether an address was stored,
and whether a diagnostic was written into errmsg. -/
structure HostPortOut where
  ret : Int
  portStored : Option Nat
  addrStored : Bool
  errWritten : Bool
deriving DecidableEq, Repr

/-- The port_str local of opt2host_port: everything after the first
colon, or the whole argument when there is no colon. -/
def portStrOf (arg : List Char) : List Char :=
  match splitAtColon arg with
  | some pr => pr.2
  | none => arg

/-- From lircd.c lines 259-285: opt2host_port.  The aton parameter models
libc inet_aton (true exactly when the host text is an address it
accepts); the port is stored before the host part is validated. -/
def opt2host_port (aton : List Char → Bool) (arg : List Char) : HostPortOut :=
  if arg.isEmpty ∨ ¬(strtol10 (portStrOf arg)).2.isEmpty ∨
      (strtol10 (portStrOf arg)).1 < 1 ∨ (strtol10 (portStrOf arg)).1 > 65535 then
    ⟨-1, none, false, true⟩
  else
    match splitAtColon arg with
    | some pr =>
      if aton pr.1 then ⟨0, some (strtol10 (portStrOf arg)).1.toNat, true, false⟩
      else ⟨-1, some (strtol10 (portStrOf arg)).1.toNat, false, true⟩
    | none => ⟨0, some (strtol10 (portStrOf arg)).1.toNat, false, false⟩

/-- Splitting of a character list at every occurrence of a separator. -/
def splitListOn (c : Char) : List Char → List (List Char)
  | [] => [[]]
  | ch :: rest =>
    match splitListOn c rest with
    | [] => [[ch]]
    | g :: gs => if ch == c then [] :: g :: gs else (ch :: g) :: gs

/-- Modelled from the spec: libc inet_aton restricted to dotted quads of
four decimal octets; used only to instantiate concrete inputs. -/
def dottedQuad (s : List Char) : Bool :=
  (splitListOn '.' s).length == 4 &&
    (splitListOn '.' s).all (fun p =>
      !p.isEmpty && p.all isDigitChar && decide (digitsVal p ≤ 255))

/-! ## lircd.c main -/

/-- Modelled from the spec: LIRC_INET_PORT, the default TCP port, a
header constant outside src/. -/
def LIRC_INET_PORT : Nat := 8765

/-- From lircd.c line 302: the permission string read by main (note the
NULL default). -/
def mainPermission (d : Dict) : Option String :=
  getstring d "lircd:permission" none

/-- From lircd.c line 308: the driver name read by main. -/
def mainDriver (d : Dict) : Option String :=
  getstring d "lircd:driver" none

/-- From lircd.c lines 352-353: the allow_simulate flag read by main;
the key has an underscore where the -a option handler writes a hyphen. -/
def mainAllowSimulate (d : Dict) : Bool :=
  getboolean d "lircd:allow_simulate" false

/-- From lircd.c line 357: the repeat ceiling read by main; the int
returned by ciniparser_getint is stored into a __u32, hence the
reduction modulo 2^32. -/
def mainRepeatMax (d : Dict) : Nat :=
  ((getint d "lircd:repeat-max" 0) % (2 : Int) ^ 32).toNat

/-- From lircd.c lines 328-339: the listen section of main.  none models
the EXIT_FAILURE return on a bad host:port; some (ltcp, port) carries
listen_tcpip and the port otherwise (the port component is unused when
listening is off). -/
def listenStep (aton : List Char → Bool) (d : Dict) : Option (Bool × Nat) :=
  match getstring d "lircd:listen" none with
  | none => some (false, 0)
  | some _ =>
    match getstring d "lircd:listen_hostport" none with
    | none => some (true, LIRC_INET_PORT)
    | some hp =>
      let o := opt2host_port aton hp.toList
      if o.ret ≠ 0 then none else some (true, o.portStored.getD 0)

/-- From lircd.c lines 340-344: whether main calls add_peer_connection
and, when it does, the argument it passes.  The source passes the stale
getopt global optarg, not the connect value it just read, so the passed
argument is a parameter here: glibc getopt resets optarg to NULL on the
final call of the option loop, making it NULL at this point. -/
def connectArg (d : Dict) (optargFinal : Option String) :
    Option (Option String) :=
  if (getstring d "lircd:connect" none).isSome then some optargFinal else none

/-- State carried into the event loop when startup succeeds. -/
structure RunConfig where
  hw : Hardware
  lircdfile : Option String
  permission : Int
  nodaemon : Bool
  listen_tcpip : Bool
  port : Nat
  allow_simulate : Bool
  userelease : Bool
  repeat_max : Nat
  peern : Nat
deriving DecidableEq, Repr

/-- Outcome of main up to the call of loop: an EXIT_FAILURE return after
an fprintf of the diagnostic to stderr, an EXIT_SUCCESS return, a path
whose behaviour is undefined in C (strcmp on a NULL string), or entry
into start_server and the event loop with the accumulated state. -/
inductive MainOutcome where
  | exitFailure (diag : String)
  | exitSuccess
  | undef
  | run (cfg : RunConfig)
deriving DecidableEq, Repr

/-- True exactly on the EXIT_FAILURE outcomes. -/
def MainOutcome.failed : MainOutcome → Bool
  | .exitFailure _ => true
  | _ => false

/-- True exactly on the outcome that reaches the event loop. -/
def MainOutcome.entersLoop : MainOutcome → Bool
  | .run _ => true
  | _ => false

/-- From lircd.c lines 359-361: the device option, when present,
overrides the driver's device path. -/
def deviceOverride (d : Dict) (hw2 : Hardware) : Hardware :=
  match getstring d "lircd:device" none with
  | some dv => { hw2 with device := some dv }
  | none => hw2

/-- From lircd.c lines 359-441: the tail of main after the connect
section; device override, the no-hardware/no-peers check, the
device-collision check, then entry into the loop. -/
def mainTail (d : Dict) (hw2 : Hardware) (lp : Bool × Nat) (peern : Nat) :
    MainOutcome :=
  if (deviceOverride d hw2).name = "null" ∧ peern = 0 then
    MainOutcome.exitFailure
      "lircd: there is no hardware I can use and no peers are specified"
  else
    match (deviceOverride d hw2).device, getstring d "lircd:output" none with
    | some dev, some lf =>
      if dev = lf then
        MainOutcome.exitFailure "lircd: refusing to connect to myself"
      else
        MainOutcome.run
          ⟨deviceOverride d hw2, some lf, oatoi (mainPermission d),
           getboolean d "lircd:nodaemon" false, lp.1, lp.2,
           mainAllowSimulate d, getboolean d "lircd:release" false,
           mainRepeatMax d, peern⟩
    | some _, none => MainOutcome.undef
    | none, lf =>
      MainOutcome.run
        ⟨deviceOverride d hw2, lf, oatoi (mainPermission d),
         getboolean d "lircd:nodaemon" false, lp.1, lp.2,
         mainAllowSimulate d, getboolean d "lircd:release" false,
         mainRepeatMax d, peern⟩

/-- From lircd.c lines 288-441: main after lirc_options_init produced
the dictionary d.  add_peer is the success predicate of the external
add_peer_connection, applied to the argument main passes it. -/
def mainModel (aton : List Char → Bool) (add_peer : Option String → Bool)
    (optargFinal : Option String) (d : Dict) : MainOutcome :=
  if oatoi (mainPermission d) = -1 then
    MainOutcome.exitFailure "lircd: Invalid mode"
  else
    match mainDriver d with
    | none => MainOutcome.undef
    | some drv =>
      if drv = "help" ∨ drv = "?" then MainOutcome.exitSuccess
      else if (hw_choose_driver hw_default (some drv)).1 ≠ 0 then
        MainOutcome.exitFailure "Driver not supported."
      else
        match listenStep aton d with
        | none => MainOutcome.exitFailure "lircd: bad port number"
        | some lp =>
          match connectArg d optargFinal with
          | some arg =>
            if add_peer arg then
              mainTail d (hw_choose_driver hw_default (some drv)).2 lp 1
            else MainOutcome.exitFailure "add_peer_connection failed"
          | none => mainTail d (hw_choose_driver hw_default (some drv)).2 lp 0

/-! ## lircd.c loop -/

/-- The environment of one iteration of loop (lircd.c lines 236-255):
whether hw.rec_func is installed, what it returns when called, whether
the notify capability is advertised (hw.ioctl_func present and
LIRC_CAN_NOTIFY_DECODE set in hw.features), the value the ioctl hook
returns (the source discards it), and the three outputs of
get_release_data. -/
structure LoopInput where
  recInstalled : Bool
  pollResult : Option String
  notifyCapable : Bool
  notifyRet : Int
  releaseRemote : String
  releaseButton : String
  releaseReps : Int
deriving DecidableEq, Repr

/-- Observable actions of one loop iteration, in program order. -/
inductive LoopAction where
  | waited
  | notified (ret : Int)
  | emitted (message : String) (remote : String) (button : String)
      (reps : Int) (release : Int)
deriving DecidableEq, Repr

/-- From lircd.c lines 236-255: the body of while(1) in loop.
waitfordata always runs; with no rec_func the iteration continues; a NULL
message does nothing further; a decoded message first fires the notify
hook when the capability is advertised (its return value is dropped),
then emits input_message with release argument 0. -/
def loopIter (inp : LoopInput) : List LoopAction :=
  LoopAction.waited ::
    (if inp.recInstalled then
      match inp.pollResult with
      | some msg =>
        (if inp.notifyCapable then [LoopAction.notified inp.notifyRet] else [])
          ++ [LoopAction.emitted msg inp.releaseRemote inp.releaseButton
                inp.releaseReps 0]
      | none => []
    else [])

/-- The first n iterations of the infinite while(1) loop, fed by the
stream of iteration environments; no iteration can break out, so every
environment in range is processed. -/
def loopRun (ins : Nat → LoopInput) : Nat → List LoopAction
  | 0 => []
  | n + 1 => loopIter (ins 0) ++ loopRun (fun i => ins (i + 1)) n

/-! ## Repeat/release decode state

Modelled from the spec: the repeat counter, repeat_remote/repeat_code
bookkeeping and get_release_data are implemented outside src/ (only
their caller loop and the repeat_max configuration are present), so the
decode transition is modelled from spec section 4.4. -/

/-- A decoded broadcast event as described in spec section 3. -/
structure Event where
  remote : String
  button : String
  repeat_count : Nat
  release : Bool
deriving DecidableEq, Repr

/-- Modelled from the spec: the process-wide DecodeState record of spec
section 3, restricted to the fields the repeat logic of section 4.4
touches. -/
structure DecodeState where
  repeating : Option (String × String)
  reps : Nat
  repeat_max : Nat
deriving DecidableEq, Repr

/-- Modelled from the spec, section 4.4: the transition on a raw decode
of button b on remote r.  A differing or absent repeating button is a
fresh press (reps reset, event with count 0); a matching button before
the timeout increments reps, capped at repeat_max, beyond which repeats
are suppressed (no event). -/
def onDecode (st : DecodeState) (r b : String) (beforeTimeout : Bool) :
    DecodeState × Option Event :=
  if beforeTimeout ∧ st.repeating = some (r, b) then
    if st.reps + 1 ≤ st.repeat_max then
      (⟨st.repeating, st.reps + 1, st.repeat_max⟩,
       some ⟨r, b, st.reps + 1, false⟩)
    else (st, none)
  else
    (⟨some (r, b), 0, st.repeat_max⟩, some ⟨r, b, 0, false⟩)

/-- Modelled from the spec, section 4.4: the timeout transition, the only
source of release events; it clears the repeating button. -/
def onTimeout (st : DecodeState) : DecodeState × Option Event :=
  match st.repeating with
  | some rb => (⟨none, 0, st.repeat_max⟩, some ⟨rb.1, rb.2, st.reps, true⟩)
  | none => (st, none)

/-- A run of n decoded presses of the same button, each arriving before
the repeat-timeout deadline, with the emitted events collected in
order. -/
def runPresses (st : DecodeState) (r b : String) : Nat → DecodeState × List Event
  | 0 => (st, [])
  | n + 1 =>
    let step := onDecode st r b true
    let rest := runPresses step.1 r b n
    (rest.1, step.2.toList ++ rest.2)

/-- A run of n same-button presses starting from the initial decode state
with ceiling maxr. -/
def freshRun (maxr : Nat) (r b : String) (n : Nat) : DecodeState × List Event :=
  runPresses ⟨none, 0, maxr⟩ r b n

/-- Keys written by one case of the option switch of parse_options. -/
def optKeys : CmdOpt → List String
  | .n => ["lircd:nodaemon"]
  | .p _ => ["lircd:permission"]
  | .H _ => ["lircd:driver"]
  | .d _ => ["lircd:device"]
  | .P _ => ["lircd:pidfile"]
  | .U _ => ["lircd:plugindir"]
  | .L _ => ["lircd:logfile"]
  | .o _ => ["lircd:lircdfile"]
  | .l _ => ["lircd:listen", "lircd:listen_hostport"]
  | .c _ => ["lircd:connect"]
  | .D _ => ["lircd:debug"]
  | .a => ["lircd:allow-simulate"]
  | .r _ => ["lircd:release", "lircd:release_suffix"]
  | .u => ["lircd:uinput"]
  | .R _ => ["lircd:repeat-max"]

/-! ## Dictionary lemmas -/

theorem getstring_dictSet_self (d : Dict) (k : String) (v dflt : Option String) :
    getstring (dictSet d k v) k dflt = v := by
  simp [getstring, dictGet, dictSet, List.find?]

theorem getstring_dictSet_ne (d : Dict) (k1 k2 : String) (v dflt : Option String)
    (h : k1 ≠ k2) : getstring (dictSet d k1 v) k2 dflt = getstring d k2 dflt := by
  simp [getstring, dictGet, dictSet, List.find?, beq_eq_false_iff_ne.mpr h]

theorem getstring_addStep_ne (d : Dict) (kv : String × Option String)
    (k : String) (dflt : Option String) (h : kv.1 ≠ k) :
    getstring (addStep d kv) k dflt = getstring d k dflt := by
  unfold addStep
  cases getstring d kv.1 none with
  | none => exact getstring_dictSet_ne d kv.1 k kv.2 dflt h
  | some _ => rfl

theorem getstring_addStep_self (d : Dict) (k : String) (v : Option String) :
    getstring (addStep d (k, v)) k none =
      match getstring d k none with
      | none => v
      | some x => some x := by
  unfold addStep
  cases h : getstring d k none with
  | none => simp [h, getstring_dictSet_self]
  | some _ => simp [h]

theorem getstring_foldl_addStep_ne (L : List (String × Option String))
    (d : Dict) (k : String) (dflt : Option String) (h : ∀ kv ∈ L, kv.1 ≠ k) :
    getstring (L.foldl addStep d) k dflt = getstring d k dflt := by
  induction L generalizing d with
  | nil => rfl
  | cons a L ih =>
    rw [List.foldl_cons, ih _ (fun kv hm => h kv (List.mem_cons_of_mem a hm))]
    exact getstring_addStep_ne d a k dflt (h a (List.mem_cons_self a L))

theorem getstring_add_defaults_of_split (bc : BuildConsts) (d : Dict)
    (k : String) (v : Option String) (L1 L2 : List (String × Option String))
    (hsplit : defaultsList bc = L1 ++ (k, v) :: L2)
    (h1 : ∀ kv ∈ L1, kv.1 ≠ k) (h2 : ∀ kv ∈ L2, kv.1 ≠ k) :
    getstring (add_defaults bc d) k none =
      match getstring d k none with
      | none => v
      | some x => some x := by
  unfold add_defaults
  rw [hsplit, List.foldl_append, List.foldl_cons,
      getstring_foldl_addStep_ne L2 _ k none h2, getstring_addStep_self,
      getstring_foldl_addStep_ne L1 d k none h1]

theorem getstring_applyOpt_ne (bc : BuildConsts) (d : Dict) (op : CmdOpt)
    (k : String) (dflt : Option String) (h : k ∉ optKeys op) :
    getstring (applyOpt bc d op) k dflt = getstring d k dflt := by
  cases op <;> simp [optKeys] at h <;>
    simp [applyOpt, getstring_dictSet_ne, Ne.symm, h]

theorem getstring_parse_options_ne (bc : BuildConsts) (d : Dict)
    (opts : List CmdOpt) (k : String) (dflt : Option String)
    (h : ∀ op ∈ opts, k ∉ optKeys op) :
    getstring (parse_options bc d opts) k dflt = getstring d k dflt := by
  induction opts generalizing d with
  | nil => rfl
  | cons op opts ih =>
    rw [parse_options, List.foldl_cons]
    rw [show (opts.foldl (applyOpt bc) (applyOpt bc d op)) =
          parse_options bc (applyOpt bc d op) opts from rfl]
    rw [ih _ (fun o hm => h o (List.mem_cons_of_mem op hm))]
    exact getstring_applyOpt_ne bc d op k dflt (h op (List.mem_cons_self op opts))

theorem getstring_loadFile_not_mem (entries : List (String × String))
    (k : String) (h : ∀ v, (k, v) ∉ entries) :
    getstring (loadFile entries) k none = none := by
  induction entries with
  | nil => rfl
  | cons a es ih =>
    have hne : (a.1 == k) = false := by
      refine beq_eq_false_iff_ne.mpr (fun e => h a.2 ?_)
      rw [← e]
      exact List.mem_cons_self a es
    simp only [loadFile, List.map_cons, getstring, dictGet, List.find?, hne]
    exact ih (fun v hm => h v (List.mem_cons_of_mem a hm))

/-! ## Claim theorems -/

/-- C8: hw_choose_driver returns 0 and installs a driver into the global
hw exactly when the name is NULL (installing the default driver) or the
name, after the dev/input alias, matches a driver of hw_list
case-insensitively; for every other name it returns -1 and leaves the
global hw unchanged. -/
theorem c8_hw_choose_driver (hw0 : Hardware) (name : Option String) :
    ((hw_choose_driver hw0 name).1 = 0 ↔
      (name = none ∨ ∃ s, name = some s ∧
        hw_list.any (fun h => strcaseEq h.name (aliasName s)) = true))
    ∧ (name = none → hw_choose_driver hw0 name = (0, hw_default))
    ∧ ((hw_choose_driver hw0 name).1 ≠ 0 →
        (hw_choose_driver hw0 name).1 = -1 ∧ (hw_choose_driver hw0 name).2 = hw0)
    ∧ ((hw_choose_driver hw0 name).1 = 0 →
        (hw_choose_driver hw0 name).2 = hw_default ∨
          (hw_choose_driver hw0 name).2 ∈ hw_list) := by
  cases name with
  | none => simp [hw_choose_driver]
  | some s =>
    cases hf : hw_list.find? (fun h => strcaseEq h.name (aliasName s)) with
    | none =>
      have hany : hw_list.any (fun h => strcaseEq h.name (aliasName s)) = false := by
        rw [Bool.eq_false_iff]
        intro hco
        obtain ⟨x, hx, hpx⟩ := List.any_eq_true.mp hco
        exact List.find?_eq_none.mp hf x hx hpx
      simp [hw_choose_driver, hf, hany]
      exact fun x hx => Bool.eq_false_iff.mpr (List.find?_eq_none.mp hf x hx)
    | some hw1 =>
      have hmem : hw1 ∈ hw_list := List.mem_of_find?_eq_some hf
      have hp := List.find?_some hf
      have hany : hw_list.any (fun h => strcaseEq h.name (aliasName s)) = true :=
        List.any_eq_true.mpr ⟨hw1, hmem, hp⟩
      simp [hw_choose_driver, hf, hany, hmem]
      exact ⟨hw1, hmem, hp⟩

/-- C8 witness: concrete instantiations discharging the hypotheses of
c8_hw_choose_driver at the names NULL, "NULL" (a case-insensitive match)
and "foo" (unknown). -/
theorem c8_hw_choose_driver_witness :
    hw_choose_driver hw_null none = (0, hw_default)
    ∧ ((hw_choose_driver hw_null (some "foo")).1 = -1 ∧
        (hw_choose_driver hw_null (some "foo")).2 = hw_null)
    ∧ ((hw_choose_driver hw_null (some "NULL")).2 = hw_default ∨
        (hw_choose_driver hw_null (some "NULL")).2 ∈ hw_list) :=
  ⟨(c8_hw_choose_driver hw_null none).2.1 rfl,
   (c8_hw_choose_driver hw_null (some "foo")).2.2.1 (by decide),
   (c8_hw_choose_driver hw_null (some "NULL")).2.2.2 (by decide)⟩

/-- The success condition of opt2host_port on its port part: non-empty
argument, the port text fully consumed by strtol, value in [1, 65535]. -/
def portPartOk (arg : List Char) : Bool :=
  !arg.isEmpty && (strtol10 (portStrOf arg)).2.isEmpty &&
    decide (1 ≤ (strtol10 (portStrOf arg)).1) &&
    decide ((strtol10 (portStrOf arg)).1 ≤ 65535)

/-- The success condition of opt2host_port on its host part: no colon at
all, or inet_aton accepts the text before the first colon. -/
def hostOk (aton : List Char → Bool) (arg : List Char) : Bool :=
  match splitAtColon arg with
  | none => true
  | some pr => aton pr.1

/-- C10 counterexample: on the input "x:80" the call fails with -1 (the
host part is not an address), yet the port output has already been
stored, contradicting the claim that in every error case the port output
is not stored. -/
theorem c10_counterexample :
    (opt2host_port dottedQuad ("x:80".toList)).ret = -1
    ∧ (opt2host_port dottedQuad ("x:80".toList)).portStored = some 80 := by
  constructor <;> decide

/-- C10 amended: opt2host_port returns 0 and stores the parsed port (and,
when a colon separator is present, the parsed address) exactly when the
input is non-empty, the port part fully parses as a decimal number in
[1, 65535], and any host part is accepted by inet_aton; in every other
case it returns -1 after writing a diagnostic into errmsg, and the port
output is left unstored exactly when the port part itself was invalid:
when only the host part is invalid, the port has already been stored. -/
theorem c10_opt2host_port (aton : List Char → Bool) (arg : List Char) :
    ((opt2host_port aton arg).ret = 0 ↔
      (portPartOk arg = true ∧ hostOk aton arg = true))
    ∧ ((opt2host_port aton arg).ret = 0 ∨ (opt2host_port aton arg).ret = -1)
    ∧ ((opt2host_port aton arg).errWritten = true ↔
        (opt2host_port aton arg).ret = -1)
    ∧ ((opt2host_port aton arg).portStored =
        if portPartOk arg then some (strtol10 (portStrOf arg)).1.toNat else none)
    ∧ ((opt2host_port aton arg).addrStored =
        ((opt2host_port aton arg).ret == 0 && (splitAtColon arg).isSome)) := by
  by_cases hc : arg.isEmpty ∨ ¬(strtol10 (portStrOf arg)).2.isEmpty ∨
      (strtol10 (portStrOf arg)).1 < 1 ∨ (strtol10 (portStrOf arg)).1 > 65535
  · have hpp : portPartOk arg = false := by
      unfold portPartOk
      rcases hc with h | h | h | h <;> simp [h]
    rw [opt2host_port, if_pos hc]
    simp [hpp]
  · have hpp : portPartOk arg = true := by
      push_neg at hc
      unfold portPartOk
      simp [hc.1, hc.2.1, hc.2.2.1, hc.2.2.2]
    rw [opt2host_port, if_neg hc]
    cases hsep : splitAtColon arg with
    | none =>
      have hho : hostOk aton arg = true := by unfold hostOk; rw [hsep]
      simp [hsep, hpp, hho]
    | some pr =>
      have hho : hostOk aton arg = aton pr.1 := by unfold hostOk; rw [hsep]
      cases ha : aton pr.1 with
      | false => simp [hsep, hpp, hho, ha]
      | true => simp [hsep, hpp, hho, ha]

theorem onDecode_release_false (st : DecodeState) (r b : String)
    (bt : Bool) (e : Event) (h : (onDecode st r b bt).2 = some e) :
    e.release = false := by
  unfold onDecode at h
  split at h
  · split at h
    · exact (Option.some.inj h) ▸ rfl
    · exact absurd h (by simp)
  · exact (Option.some.inj h) ▸ rfl

theorem runPresses_release_false (r b : String) (n : Nat) :
    ∀ (st : DecodeState) (e : Event), e ∈ (runPresses st r b n).2 →
      e.release = false := by
  induction n with
  | zero => intro st e he; simp [runPresses] at he
  | succ n ih =>
    intro st e he
    rw [runPresses] at he
    rcases List.mem_append.mp he with h1 | h2
    · cases hs : (onDecode st r b true).2 with
      | none => rw [hs] at h1; simp at h1
      | some e1 =>
        rw [hs] at h1
        simp at h1
        exact h1 ▸ onDecode_release_false st r b true e1 hs
    · exact ih _ e h2

theorem runPresses_counts (r b : String) (maxr : Nat) :
    ∀ (n k : Nat), k ≤ maxr →
      ((runPresses ⟨some (r, b), k, maxr⟩ r b n).2.map Event.repeat_count)
        = (List.range (min n (maxr - k))).map (fun i => k + 1 + i) := by
  intro n
  induction n with
  | zero => intro k hk; simp [runPresses]
  | succ n ih =>
    intro k hk
    by_cases h : k + 1 ≤ maxr
    · have hstep : onDecode ⟨some (r, b), k, maxr⟩ r b true =
          (⟨some (r, b), k + 1, maxr⟩, some ⟨r, b, k + 1, false⟩) := by
        unfold onDecode
        rw [if_pos ⟨rfl, rfl⟩, if_pos h]
      rw [runPresses, hstep]
      simp only [Option.toList_some, List.singleton_append, List.map_cons]
      rw [ih (k + 1) h]
      have hm : min (n + 1) (maxr - k) = min n (maxr - k - 1) + 1 := by omega
      rw [hm, List.range_succ_eq_map]
      simp only [List.map_cons, List.map_map]
      refine List.cons_eq_cons.mpr ⟨by omega, ?_⟩
      rw [show maxr - (k + 1) = maxr - k - 1 from rfl]
      exact List.map_congr_left (fun i _ => by simp [Function.comp]; omega)
    · have hk' : k = maxr := by omega
      have hstep : onDecode ⟨some (r, b), k, maxr⟩ r b true =
          (⟨some (r, b), k, maxr⟩, none) := by
        unfold onDecode
        rw [if_pos ⟨rfl, rfl⟩, if_neg h]
      rw [runPresses, hstep]
      simp only [Option.toList_none, List.nil_append]
      rw [ih k hk]
      have h0 : maxr - k = 0 := by omega
      rw [h0]
      simp

/-- C2: over any sequence of decoded presses of the same button on the
same remote, each arriving before the repeat-timeout deadline, the
repeat_count values of the emitted events are exactly 0, 1, ...,
increasing by 1 and capped at repeat_max (further repeats beyond the cap
are suppressed), and no event of the sequence carries the release
flag. -/
theorem c2_repeat_counts (maxr n : Nat) (r b : String) :
    ((freshRun maxr r b n).2.map Event.repeat_count
        = List.range (min n (maxr + 1)))
    ∧ (∀ e ∈ (freshRun maxr r b n).2, e.release = false) := by
  constructor
  · cases n with
    | zero => simp [freshRun, runPresses]
    | succ n =>
      have hstep : onDecode ⟨none, 0, maxr⟩ r b true =
          (⟨some (r, b), 0, maxr⟩, some ⟨r, b, 0, false⟩) := by
        unfold onDecode
        rw [if_neg (by simp)]
      rw [freshRun, runPresses, hstep]
      simp only [Option.toList_some, List.singleton_append, List.map_cons]
      rw [runPresses_counts r b maxr n 0 (Nat.zero_le maxr)]
      have hm : min (n + 1) (maxr + 1) = min n (maxr - 0) + 1 := by omega
      rw [hm, List.range_succ_eq_map]
      refine List.cons_eq_cons.mpr ⟨rfl, List.map_congr_left (fun i _ => by omega)⟩
  · intro e he
    exact runPresses_release_false r b n _ e he

/-- C2 witness: c2_repeat_counts instantiated at ceiling 2 and five
presses, with the release property discharged at the first emitted
event. -/
theorem c2_repeat_counts_witness :
    ((freshRun 2 "r" "b" 5).2.map Event.repeat_count = List.range (min 5 (2 + 1)))
    ∧ (⟨"r", "b", 0, false⟩ : Event).release = false :=
  ⟨(c2_repeat_counts 2 5 "r" "b").1,
   (c2_repeat_counts 2 5 "r" "b").2 ⟨"r", "b", 0, false⟩ (by decide)⟩

/-- C5: in every loop iteration in which the hardware poll yields a
decode and the hardware advertises the notify capability, the
notify-decode hook runs immediately after the successful decode and
before the decoded event is emitted, and a failure of the hook is never
fatal: whatever value the hook returns, the iteration still emits the
event. -/
theorem c5_notify_hook (inp : LoopInput) (m : String)
    (hrec : inp.recInstalled = true) (hpoll : inp.pollResult = some m)
    (hcap : inp.notifyCapable = true) :
    loopIter inp = [LoopAction.waited, LoopAction.notified inp.notifyRet,
      LoopAction.emitted m inp.releaseRemote inp.releaseButton
        inp.releaseReps 0]
    ∧ LoopAction.emitted m inp.releaseRemote inp.releaseButton
        inp.releaseReps 0 ∈ loopIter inp := by
  constructor
  · simp [loopIter, hrec, hpoll, hcap]
  · simp [loopIter, hrec, hpoll, hcap]

/-- C5 witness: c5_notify_hook at a concrete iteration whose hook
returns the failure value -1. -/
theorem c5_notify_hook_witness :
    loopIter ⟨true, some "m", true, -1, "r", "b", 2⟩
      = [LoopAction.waited, LoopAction.notified (-1),
         LoopAction.emitted "m" "r" "b" 2 0] :=
  (c5_notify_hook ⟨true, some "m", true, -1, "r", "b", 2⟩ "m" rfl rfl rfl).1

/-- C6: an iteration whose hardware poll yields nothing (no rec_func
installed, or a NULL return) emits no event and does not invoke the
notify hook, and the while(1) loop keeps polling: over any number of
iterations whose polls all fail, the run performs exactly its waits and
never terminates early. -/
theorem c6_empty_poll (inp : LoopInput) (ins : Nat → LoopInput) (n : Nat) :
    ((inp.recInstalled = false ∨ inp.pollResult = none) →
      loopIter inp = [LoopAction.waited])
    ∧ ((∀ i, (ins i).recInstalled = false ∨ (ins i).pollResult = none) →
      loopRun ins n = List.replicate n LoopAction.waited) := by
  constructor
  · rintro (h | h)
    · simp [loopIter, h]
    · cases hr : inp.recInstalled <;> simp [loopIter, h, hr]
  · intro hall
    induction n generalizing ins with
    | zero => rfl
    | succ n ih =>
      rw [loopRun, List.replicate_succ]
      have h0 : loopIter (ins 0) = [LoopAction.waited] := by
        rcases hall 0 with h | h
        · simp [loopIter, h]
        · cases hr : (ins 0).recInstalled <;> simp [loopIter, h, hr]
      rw [h0, ih (fun i => ins (i + 1)) (fun i => hall (i + 1))]
      rfl

/-- C6 witness: c6_empty_poll at a concrete iteration with no rec_func
and at a three-iteration run of failing polls. -/
theorem c6_empty_poll_witness :
    loopIter ⟨false, none, false, 0, "", "", 0⟩ = [LoopAction.waited]
    ∧ loopRun (fun _ => ⟨true, none, true, 0, "", "", 0⟩) 3
        = List.replicate 3 LoopAction.waited :=
  ⟨(c6_empty_poll ⟨false, none, false, 0, "", "", 0⟩
      (fun _ => ⟨true, none, true, 0, "", "", 0⟩) 3).1 (Or.inl rfl),
   (c6_empty_poll ⟨false, none, false, 0, "", "", 0⟩
      (fun _ => ⟨true, none, true, 0, "", "", 0⟩) 3).2 (fun _ => Or.inr rfl)⟩

theorem deviceOverride_name (d : Dict) (hw2 : Hardware) :
    (deviceOverride d hw2).name = hw2.name := by
  unfold deviceOverride
  cases getstring d "lircd:device" none <;> rfl

theorem deviceOverride_device (d : Dict) (hw2 : Hardware) (dev : String)
    (h : getstring d "lircd:device" none = some dev) :
    (deviceOverride d hw2).device = some dev := by
  unfold deviceOverride
  rw [h]

/-- C1: main exits with EXIT_FAILURE, after an fprintf of a diagnostic to
stderr, on each startup configuration error: an invalid octal permission
string, a configured driver name hw_choose_driver rejects, the null
driver selected while no peer is configured, and a hardware device path
equal to the output socket path; in each case the event loop is never
entered.  Each conjunct carries the conditions under which main reaches
the corresponding check. -/
theorem c1_startup_errors (aton : List Char → Bool)
    (add_peer : Option String → Bool) (oa : Option String) (d : Dict) :
    (oatoi (mainPermission d) = -1 →
      (mainModel aton add_peer oa d).failed = true ∧
      (mainModel aton add_peer oa d).entersLoop = false)
    ∧ (∀ drv, oatoi (mainPermission d) ≠ -1 → mainDriver d = some drv →
        drv ≠ "help" → drv ≠ "?" →
        (hw_choose_driver hw_default (some drv)).1 ≠ 0 →
        (mainModel aton add_peer oa d).failed = true ∧
        (mainModel aton add_peer oa d).entersLoop = false)
    ∧ (∀ drv lp, oatoi (mainPermission d) ≠ -1 → mainDriver d = some drv →
        drv ≠ "help" → drv ≠ "?" →
        (hw_choose_driver hw_default (some drv)).1 = 0 →
        listenStep aton d = some lp →
        getstring d "lircd:connect" none = none →
        ((hw_choose_driver hw_default (some drv)).2).name = "null" →
        (mainModel aton add_peer oa d).failed = true ∧
        (mainModel aton add_peer oa d).entersLoop = false)
    ∧ (∀ drv lp arg dev lf, oatoi (mainPermission d) ≠ -1 →
        mainDriver d = some drv → drv ≠ "help" → drv ≠ "?" →
        (hw_choose_driver hw_default (some drv)).1 = 0 →
        listenStep aton d = some lp →
        connectArg d oa = some arg → add_peer arg = true →
        getstring d "lircd:device" none = some dev →
        getstring d "lircd:output" none = some lf → dev = lf →
        (mainModel aton add_peer oa d).failed = true ∧
        (mainModel aton add_peer oa d).entersLoop = false) := by
  refine ⟨?_, ?_, ?_, ?_⟩
  · intro h1
    simp [mainModel, h1, MainOutcome.failed, MainOutcome.entersLoop]
  · intro drv h1 h2 h3 h4 h5
    rw [mainModel, if_neg h1, h2]
    simp only []
    rw [if_neg (by simp [h3, h4]), if_pos h5]
    exact ⟨rfl, rfl⟩
  · intro drv lp h1 h2 h3 h4 h5 h6 h7 hname
    have hca : connectArg d oa = none := by
      unfold connectArg
      rw [h7]
      rfl
    simp [mainModel, h1, h2, h3, h4, h5, h6, hca, mainTail,
          deviceOverride_name, hname, MainOutcome.failed,
          MainOutcome.entersLoop]
  · intro drv lp arg dev lf h1 h2 h3 h4 h5 h6 h7 h8 h9 h10 h11
    have hdev :=
      deviceOverride_device d (hw_choose_driver hw_default (some drv)).2 dev h9
    simp [mainModel, h1, h2, h3, h4, h5, h6, h7, h8, mainTail, hdev, h10,
          h11, deviceOverride_name, MainOutcome.failed,
          MainOutcome.entersLoop]

/-- C1 witness: c1_startup_errors at four concrete configurations, one
per startup error: permission "9" (not octal), driver "foo" (unknown),
driver "null" with no peers, and device equal to the output path with a
successfully added peer. -/
theorem c1_startup_errors_witness :
    ((mainModel dottedQuad (fun _ => true) none
        [("lircd:permission", some "9")]).failed = true ∧
      (mainModel dottedQuad (fun _ => true) none
        [("lircd:permission", some "9")]).entersLoop = false)
    ∧ ((mainModel dottedQuad (fun _ => true) none
        [("lircd:permission", some "666"),
         ("lircd:driver", some "foo")]).failed = true ∧
      (mainModel dottedQuad (fun _ => true) none
        [("lircd:permission", some "666"),
         ("lircd:driver", some "foo")]).entersLoop = false)
    ∧ ((mainModel dottedQuad (fun _ => true) none
        [("lircd:permission", some "666"),
         ("lircd:driver", some "null")]).failed = true ∧
      (mainModel dottedQuad (fun _ => true) none
        [("lircd:permission", some "666"),
         ("lircd:driver", some "null")]).entersLoop = false)
    ∧ ((mainModel dottedQuad (fun _ => true) none
        [("lircd:permission", some "666"), ("lircd:driver", some "null"),
         ("lircd:connect", some "h:1"), ("lircd:device", some "/tmp/s"),
         ("lircd:output", some "/tmp/s")]).failed = true ∧
      (mainModel dottedQuad (fun _ => true) none
        [("lircd:permission", some "666"), ("lircd:driver", some "null"),
         ("lircd:connect", some "h:1"), ("lircd:device", some "/tmp/s"),
         ("lircd:output", some "/tmp/s")]).entersLoop = false) :=
  ⟨(c1_startup_errors dottedQuad (fun _ => true) none
      [("lircd:permission", some "9")]).1 (by decide),
   (c1_startup_errors dottedQuad (fun _ => true) none
      [("lircd:permission", some "666"), ("lircd:driver", some "foo")]).2.1
      "foo" (by decide) (by decide) (by decide) (by decide) (by decide),
   (c1_startup_errors dottedQuad (fun _ => true) none
      [("lircd:permission", some "666"), ("lircd:driver", some "null")]).2.2.1
      "null" (false, 0) (by decide) (by decide) (by decide) (by decide)
      (by decide) (by decide) (by decide) (by decide),
   (c1_startup_errors dottedQuad (fun _ => true) none
      [("lircd:permission", some "666"), ("lircd:driver", some "null"),
       ("lircd:connect", some "h:1"), ("lircd:device", some "/tmp/s"),
       ("lircd:output", some "/tmp/s")]).2.2.2
      "null" (false, 0) none "/tmp/s" "/tmp/s" (by decide) (by decide)
      (by decide) (by decide) (by decide) (by decide) (by decide) rfl
      (by decide) (by decide) rfl⟩

theorem getstring_add_defaults_repeat_max (bc : BuildConsts) (d : Dict) :
    getstring (add_defaults bc d) "lircd:repeat-max" none =
      match getstring d "lircd:repeat-max" none with
      | none => some DEFAULT_REPEAT_MAX
      | some x => some x := by
  refine getstring_add_defaults_of_split bc d "lircd:repeat-max"
    (some DEFAULT_REPEAT_MAX)
    [("lircd:nodaemon", some "False"),
     ("lircd:permission", some default_permissions),
     ("lircd:driver", some "default"),
     ("lircd:device", some "/dev/lirc0"),
     ("lircd:listen", none),
     ("lircd:connect", none),
     ("lircd:output", some bc.lircd),
     ("lircd:pidfile", some bc.pidfilePath),
     ("lircd:logfile", some bc.logfilePath),
     ("lircd:plugindir", some bc.plugindir),
     ("lircd:debug", some "False"),
     ("lircd:release", none),
     ("lircd:allow_simulate", some "False"),
     ("lircd:uinput", some "False")]
    [] rfl ?_ ?_
  · intro kv hm
    simp at hm
    rcases hm with rfl | rfl | rfl | rfl | rfl | rfl | rfl | rfl | rfl |
      rfl | rfl | rfl | rfl | rfl <;> simp
  · intro kv hm
    cases hm

theorem getstring_add_defaults_output (bc : BuildConsts) (d : Dict) :
    getstring (add_defaults bc d) "lircd:output" none =
      match getstring d "lircd:output" none with
      | none => some bc.lircd
      | some x => some x := by
  refine getstring_add_defaults_of_split bc d "lircd:output" (some bc.lircd)
    [("lircd:nodaemon", some "False"),
     ("lircd:permission", some default_permissions),
     ("lircd:driver", some "default"),
     ("lircd:device", some "/dev/lirc0"),
     ("lircd:listen", none),
     ("lircd:connect", none)]
    [("lircd:pidfile", some bc.pidfilePath),
     ("lircd:logfile", some bc.logfilePath),
     ("lircd:plugindir", some bc.plugindir),
     ("lircd:debug", some "False"),
     ("lircd:release", none),
     ("lircd:allow_simulate", some "False"),
     ("lircd:uinput", some "False"),
     ("lircd:repeat-max", some DEFAULT_REPEAT_MAX)]
    rfl ?_ ?_
  · intro kv hm
    simp at hm
    rcases hm with rfl | rfl | rfl | rfl | rfl | rfl <;> simp
  · intro kv hm
    simp at hm
    rcases hm with rfl | rfl | rfl | rfl | rfl | rfl | rfl | rfl <;> simp

/-- C7: the repeat ceiling read by main at lircd.c line 357 is the
integer value of the lircd:repeat-max key, which is 600 when neither the
options file nor a -R option supplies a value, and the strtol value of
the -R argument when one does. -/
theorem c7_repeat_max (bc : BuildConsts) (file : List (String × String))
    (opts : List CmdOpt)
    (hf : ∀ v, ("lircd:repeat-max", v) ∉ file)
    (ho : ∀ s, CmdOpt.R s ∉ opts) :
    mainRepeatMax (lirc_options_init bc file opts) = 600
    ∧ ∀ v, mainRepeatMax (lirc_options_init bc file (opts ++ [CmdOpt.R v]))
        = ((strtol10 v.toList).1 % (2 : Int) ^ 32).toNat := by
  constructor
  · have hK : ∀ op ∈ opts, "lircd:repeat-max" ∉ optKeys op := by
      intro op hop
      cases op <;> simp [optKeys]
      exact absurd hop (ho _)
    have hfile : getstring (loadFile file) "lircd:repeat-max" none = none :=
      getstring_loadFile_not_mem file "lircd:repeat-max" hf
    have hval : getstring (lirc_options_init bc file opts)
        "lircd:repeat-max" none = some "600" := by
      rw [lirc_options_init,
          getstring_parse_options_ne bc _ opts "lircd:repeat-max" none hK,
          getstring_add_defaults_repeat_max bc (loadFile file), hfile]
      rfl
    rw [mainRepeatMax, getint, hval]
    decide
  · intro v
    have hval : getstring (lirc_options_init bc file (opts ++ [CmdOpt.R v]))
        "lircd:repeat-max" none = some v := by
      rw [lirc_options_init, parse_options, List.foldl_append]
      simp only [List.foldl_cons, List.foldl_nil]
      exact getstring_dictSet_self _ _ _ _
    rw [mainRepeatMax, getint, hval]

/-- C7 witness: c7_repeat_max at the empty options file and the command
line consisting of -n, then extended with -R 123. -/
theorem c7_repeat_max_witness :
    mainRepeatMax (lirc_options_init sampleConsts [] [CmdOpt.n]) = 600
    ∧ mainRepeatMax
        (lirc_options_init sampleConsts [] ([CmdOpt.n] ++ [CmdOpt.R "123"]))
        = ((strtol10 "123".toList).1 % (2 : Int) ^ 32).toNat :=
  ⟨(c7_repeat_max sampleConsts [] [CmdOpt.n]
      (fun v h => absurd h (List.not_mem_nil _))
      (fun s h => by simp at h)).1,
   (c7_repeat_max sampleConsts [] [CmdOpt.n]
      (fun v h => absurd h (List.not_mem_nil _))
      (fun s h => by simp at h)).2 "123"⟩

/-- C9: the -o option stores its argument under the key lircd:lircdfile,
while main reads the output socket path from the key lircd:output, a key
no command-line option ever writes; hence for every command line the
effective output path equals the options-file value of lircd:output or
its built-in default LIRCD. -/
theorem c9_output_option (bc : BuildConsts) (file : List (String × String))
    (opts : List CmdOpt) (s : String) (d : Dict) :
    (getstring (applyOpt bc d (CmdOpt.o s)) "lircd:lircdfile" none = some s)
    ∧ (getstring (applyOpt bc d (CmdOpt.o s)) "lircd:output" none =
        getstring d "lircd:output" none)
    ∧ (getstring (lirc_options_init bc file opts) "lircd:output" none =
        some ((getstring (loadFile file) "lircd:output" none).getD bc.lircd)) := by
  refine ⟨?_, ?_, ?_⟩
  · exact getstring_dictSet_self d "lircd:lircdfile" (some s) none
  · exact getstring_dictSet_ne d "lircd:lircdfile" "lircd:output" (some s)
      none (by decide)
  · have hK : ∀ op ∈ opts, "lircd:output" ∉ optKeys op := by
      intro op hop
      cases op <;> simp [optKeys]
    rw [lirc_options_init,
        getstring_parse_options_ne bc _ opts "lircd:output" none hK,
        getstring_add_defaults_output bc (loadFile file)]
    cases getstring (loadFile file) "lircd:output" none <;> rfl

/-- C3 (code bug): starting the daemon with -a stores True under the key
lircd:allow-simulate, but main reads the allow_simulate flag from the
key lircd:allow_simulate, whose add_defaults value False is untouched,
so after option processing the flag consumed by the command dispatcher
is still false. -/
theorem c3_allow_simulate_key_mismatch :
    (getstring (lirc_options_init sampleConsts [] [CmdOpt.a])
        "lircd:allow-simulate" none = some "True")
    ∧ mainAllowSimulate (lirc_options_init sampleConsts [] [CmdOpt.a]) = false := by
  constructor <;> decide

/-- C4 (code bug): with a peer configured in the options file and the
command line "-n", main reads the configured connect value
"remote:8765" but calls add_peer_connection on the stale getopt global
optarg — NULL after the option loop ends — and not on the configured
string. -/
theorem c4_connect_stale_optarg :
    (getstring (lirc_options_init sampleConsts
        [("lircd:connect", "remote:8765")] [CmdOpt.n]) "lircd:connect" none
      = some "remote:8765")
    ∧ (connectArg (lirc_options_init sampleConsts
        [("lircd:connect", "remote:8765")] [CmdOpt.n]) none = some none)
    ∧ some (none : Option String) ≠ some (some "remote:8765") := by
  refine ⟨by decide, by decide, by decide⟩

end Yab
